import Mathlib

/-!
Shallow embedding of the Orthanc DICOMweb plugin (STOW-RS client and server,
resource resolution) together with proofs of the specification's claims.

The embedding follows the source files:
  Plugin/DicomWebClient.cpp  (STOW-RS client: ParseStowRequest, AddInstance,
                              GetSequenceSize, SendStowChunks, StowClient)
  Plugin/StowRs.cpp          (STOW-RS server: StowCallback)
External collaborators (JsonCpp values, the Orthanc REST store, the remote
DICOMweb server, ChunkedBuffer) are modelled as explicit data: JSON values
become an inductive type, REST lookups become function-valued parameters,
and the byte buffer becomes its byte count plus the instance counter.
-/

namespace DicomWeb

/-- JSON values, mirroring the subset of JsonCpp used by the plugin. -/
inductive Json where
  | null : Json
  | str : String → Json
  | num : Int → Json
  | arr : List Json → Json
  | obj : List (String × Json) → Json

/-- First binding of a key in a JSON object field list
(mirrors JsonCpp member access, keys being unique in practice). -/
def lookupField : List (String × Json) → String → Option Json
  | [], _ => none
  | (k, v) :: rest, key => if k = key then some v else lookupField rest key

/-- Member lookup on a JSON value: objects only, as in JsonCpp. -/
def Json.lookup : Json → String → Option Json
  | .obj fields, key => lookupField fields key
  | _, _ => none

/-- Whether a JSON value is an object (JsonCpp objectValue). -/
def Json.isObj : Json → Bool
  | .obj _ => true
  | _ => false

/-- The Orthanc error codes thrown by the embedded code paths. -/
inductive ErrorCode where
  | BadRequest
  | BadFileFormat
  | UnknownResource
  | InternalError
  | NetworkProtocol
  | NotEnoughMemory
deriving DecidableEq, Repr

/-- Toolbox::ToUpperCase (Orthanc Core): character-wise ASCII upcasing. -/
def ToUpperCase (s : String) : String := ⟨s.data.map Char.toUpper⟩

/-- Toolbox::ToLowerCase (Orthanc Core): character-wise ASCII downcasing. -/
def ToLowerCase (s : String) : String := ⟨s.data.map Char.toLower⟩

/-- Embedding of `GetSequenceSize` (DicomWebClient.cpp, lines 52-93):
looks the tag up under its upper-case then lower-case spelling, requires the
value to be an object whose member Value is an array, and returns that
array's length.  An absent tag is an error only when mandatory. -/
def GetSequenceSize (answer : Json) (tag : String) (isMandatory : Bool) :
    Except ErrorCode (Option Nat) :=
  let upper := ToUpperCase tag
  let lower := ToLowerCase tag
  let value? : Option Json :=
    match answer.lookup upper with
    | some v => some v
    | none => answer.lookup lower
  match value? with
  | none => if isMandatory then .error .NetworkProtocol else .ok none
  | some v =>
    match v.lookup "Value" with
    | some (.arr elts) => .ok (some elts.length)
    | _ => .error .NetworkProtocol

/-- The check applied to each optional failure sequence in `SendStowChunks`
(lines 225-241): if present, it must have zero items. -/
def checkOptionalEmpty (response : Json) (tag : String) : Except ErrorCode Unit :=
  match GetSequenceSize response tag false with
  | .error e => .error e
  | .ok none => .ok ()
  | .ok (some k) => if k ≠ 0 then .error .NetworkProtocol else .ok ()

/-- Validation of the remote STOW-RS response inside a flush
(`SendStowChunks`, lines 201-241): the response must parse (`none` models a
parse failure), be a JSON object holding tag 00081199 whose item count equals
the number of instances sent, and the optional sequences 00081198 and
0008119A, when present, must be empty. -/
def CheckStowResponse (response? : Option Json) (countInstances : Nat) :
    Except ErrorCode Unit :=
  match response? with
  | none => .error .NetworkProtocol
  | some response =>
    match response with
    | .obj fields =>
      if (lookupField fields "00081199").isNone then .error .NetworkProtocol
      else
        match GetSequenceSize (.obj fields) "00081199" true with
        | .error e => .error e
        | .ok none => .error .NetworkProtocol
        | .ok (some size) =>
          if size ≠ countInstances then .error .NetworkProtocol
          else
            match checkOptionalEmpty (.obj fields) "00081198" with
            | .error e => .error e
            | .ok () => checkOptionalEmpty (.obj fields) "0008119A"
    | _ => .error .NetworkProtocol

/-- The two configured batching limits (`StowMaxInstances`, `StowMaxSize`),
already multiplied out to instance count and byte count. -/
structure StowConfig where
  maxInstances : Nat
  maxSize : Nat
deriving DecidableEq, Repr

/-- The batch accumulator: the chunked buffer's byte count and the number of
whole instances appended since the last flush. -/
structure Accum where
  bufferSize : Nat
  countInstances : Nat
deriving DecidableEq, Repr

/-- The flush trigger of `SendStowChunks` (lines 183-185). -/
def shouldFlush (cfg : StowConfig) (a : Accum) (force : Bool) : Bool :=
  (force && decide (0 < a.countInstances)) ||
  ((cfg.maxInstances != 0) && decide (cfg.maxInstances ≤ a.countInstances)) ||
  ((cfg.maxSize != 0) && decide (cfg.maxSize ≤ a.bufferSize))

/-- Embedding of `SendStowChunks` (lines 172-245).  `respond` models the
remote server: given the size of the flushed batch it yields the parsed JSON
response (`none` = unparseable).  On a flush the buffer is flattened (emptied)
and the instance counter reset; the returned `Option Nat` records the number
of instances flushed, `none` when no flush was triggered. -/
def SendStowChunks (cfg : StowConfig) (respond : Nat → Option Json)
    (a : Accum) (force : Bool) : Except ErrorCode (Accum × Option Nat) :=
  if shouldFlush cfg a force then
    match CheckStowResponse (respond a.countInstances) a.countInstances with
    | .ok () => .ok (⟨0, 0⟩, some a.countInstances)
    | .error e => .error e
  else
    .ok (a, none)

/-- Byte count added to the chunked buffer for one instance file of `s` bytes
(`StowClient`, lines 306-310): the multipart part header plus the payload. -/
def partBytes (boundary : String) (s : Nat) : Nat :=
  ("\r\n--" ++ boundary ++ "\r\n" ++
   "Content-Type: application/dicom\r\n" ++
   "Content-Length: " ++ toString s ++ "\r\n\r\n").length + s

/-- The per-instance loop of `StowClient` (lines 301-315).  Each list entry is
the store's answer to fetching that instance's file: `some s` a file of `s`
bytes, `none` a failed fetch (the instance is skipped).  Accumulates the list
of per-flush instance counts. -/
def stowAddLoop (cfg : StowConfig) (respond : Nat → Option Json)
    (boundary : String) :
    List (Option Nat) → Accum → List Nat → Except ErrorCode (Accum × List Nat)
  | [], a, fl => .ok (a, fl)
  | none :: rest, a, fl => stowAddLoop cfg respond boundary rest a fl
  | some s :: rest, a, fl =>
    let a' : Accum := ⟨a.bufferSize + partBytes boundary s, a.countInstances + 1⟩
    match SendStowChunks cfg respond a' false with
    | .error e => .error e
    | .ok (a'', flushed?) =>
      stowAddLoop cfg respond boundary rest a''
        (match flushed? with | some c => fl ++ [c] | none => fl)

/-- Embedding of the tail of `StowClient` (lines 298-321): run the
per-instance loop from an empty accumulator, then force a final flush; on
success answer the JSON text of an empty object.  Returns the list of
per-flush instance counts and the answered body. -/
def StowClientRun (cfg : StowConfig) (respond : Nat → Option Json)
    (boundary : String) (files : List (Option Nat)) :
    Except ErrorCode (List Nat × String) :=
  match stowAddLoop cfg respond boundary files ⟨0, 0⟩ [] with
  | .error e => .error e
  | .ok (a, fl) =>
    match SendStowChunks cfg respond a true with
    | .error e => .error e
    | .ok (_, flushed?) =>
      .ok ((match flushed? with | some c => fl ++ [c] | none => fl), "\x7b\x7d\n")

/-! ### STOW-RS server (Plugin/StowRs.cpp, StowCallback) -/

/-- One decoded multipart part of an inbound STOW-RS request, carrying the
DICOM tags the loop of `StowCallback` reads, plus the store's verdict on
posting its bytes to the object store (the result of `RestApiPost` on
`/instances`, line 212). -/
structure MultipartItem where
  contentType : String
  studyInstanceUid : String
  seriesInstanceUid : String
  sopClassUid : String
  sopInstanceUid : String
  storeOk : Bool
deriving DecidableEq, Repr

/-- The outcome tag written into one status record by `StowCallback`:
warning B006 (elements discarded), success with a per-instance retrieve URL,
or failure 0110 (processing failure). -/
inductive Outcome where
  | warningB006 : Outcome
  | successUrl : String → Outcome
  | failure0110 : Outcome
deriving DecidableEq, Repr

/-- One item appended to the Referenced (success) or Failed sequence:
the referenced SOP class / SOP instance UIDs plus the outcome tag
(lines 186-230). -/
structure StatusRecord where
  sopClassUid : String
  sopInstanceUid : String
  outcome : Outcome
deriving DecidableEq, Repr

/-- The mutable state of the `StowCallback` loop (lines 154-232): the
`isFirst` flag, the batch-level retrieve URL stamped on the result dataset,
the success and failed sequences, and the list of SOP instance UIDs for which
a store write was attempted. -/
structure StowState where
  isFirst : Bool
  retrieveUrl : Option String
  success : List StatusRecord
  failed : List StatusRecord
  posted : List String
deriving DecidableEq, Repr

/-- Whether a part is discarded by the expected-study restriction
(lines 193-194). -/
def isDiscarded (expectedStudy : String) (item : MultipartItem) : Bool :=
  (expectedStudy != "") && (item.studyInstanceUid != expectedStudy)

/-- Processing of one multipart part by the loop body of `StowCallback`
(lines 169-231).  `none` models the early `415` abort on a part whose
content type is neither empty nor application/dicom. -/
def stowStep (wadoBase expectedStudy : String) (st : StowState)
    (item : MultipartItem) : Option StowState :=
  if item.contentType ≠ "" ∧ item.contentType ≠ "application/dicom" then
    none
  else if isDiscarded expectedStudy item then
    some { st with
           success := st.success ++
             [⟨item.sopClassUid, item.sopInstanceUid, .warningB006⟩] }
  else
    let st1 :=
      if st.isFirst then
        { st with isFirst := false,
                  retrieveUrl :=
                    some (wadoBase ++ "studies/" ++ item.studyInstanceUid) }
      else st
    let st2 := { st1 with posted := st1.posted ++ [item.sopInstanceUid] }
    if item.storeOk then
      some { st2 with
             success := st2.success ++
               [⟨item.sopClassUid, item.sopInstanceUid,
                 .successUrl (wadoBase ++ "studies/" ++ item.studyInstanceUid ++
                   "/series/" ++ item.seriesInstanceUid ++
                   "/instances/" ++ item.sopInstanceUid)⟩] }
    else
      some { st2 with
             failed := st2.failed ++
               [⟨item.sopClassUid, item.sopInstanceUid, .failure0110⟩] }

/-- The loop of `StowCallback` over the decoded parts, from a given state. -/
def stowProcessFrom (wadoBase expectedStudy : String) (st : StowState) :
    List MultipartItem → Option StowState
  | [] => some st
  | item :: rest =>
    match stowStep wadoBase expectedStudy st item with
    | none => none
    | some st' => stowProcessFrom wadoBase expectedStudy st' rest

/-- A whole `StowCallback` run over its decoded multipart parts, starting
from the initial state of lines 154-157. -/
def StowCallbackRun (wadoBase expectedStudy : String)
    (items : List MultipartItem) : Option StowState :=
  stowProcessFrom wadoBase expectedStudy ⟨true, none, [], [], []⟩ items

/-- The first part that passes the expected-study restriction. -/
def firstAccepted (expectedStudy : String) (items : List MultipartItem) :
    Option MultipartItem :=
  items.find? (fun it => !(isDiscarded expectedStudy it))

/-! ### Inbound Content-Type validation (StowRs.cpp, lines 122-151) -/

/-- What `StowCallback` does with the parsed Content-Type header:
answer 400 Bad Request, answer 415 Unsupported Media Type, or proceed with
the extracted boundary. -/
inductive ValidationResult where
  | badRequest : ValidationResult
  | unsupportedMediaType : ValidationResult
  | proceed : String → ValidationResult
deriving DecidableEq, Repr

/-- Splitting a character list at a separator (Toolbox::TokenizeString). -/
def tokenizeChars (sep : Char) (cs : List Char) : List (List Char) :=
  cs.foldr
    (fun c acc =>
      match acc with
      | [] => if c = sep then [[], []] else [[c]]
      | cur :: rest => if c = sep then [] :: cur :: rest else (c :: cur) :: rest)
    [[]]

/-- Strip of surrounding whitespace (Toolbox::StripSpaces). -/
def stripChars (cs : List Char) : List Char :=
  ((cs.dropWhile Char.isWhitespace).reverse.dropWhile Char.isWhitespace).reverse

/-- Strip of surrounding whitespace, on strings. -/
def StripSpaces (s : String) : String := ⟨stripChars s.data⟩

/-- Modelled from the spec: `ParseContentType` lives in the plugin's common
configuration code, which is not under src/.  Per the spec's description of
inbound framing, the header splits at semicolons into a base media type
(compared case-insensitively, hence lower-cased) followed by key=value
parameters with case-insensitive keys; parameter values are kept verbatim,
since the validation step of the spec is the one said to inspect them. -/
def ParseContentType (header : String) : String × List (String × String) :=
  match tokenizeChars ';' header.data with
  | [] => ("", [])
  | app :: params =>
    (ToLowerCase (StripSpaces ⟨app⟩),
     params.filterMap fun p =>
       match tokenizeChars '=' p with
       | [k, v] => some (ToLowerCase (StripSpaces ⟨k⟩), StripSpaces ⟨v⟩)
       | _ => none)

/-- First binding of a key in the attribute list (std::map lookup). -/
def lookupAttr : List (String × String) → String → Option String
  | [], _ => none
  | (k, v) :: rest, key => if k = key then some v else lookupAttr rest key

/-- The Content-Type checks of `StowCallback` (lines 130-151) on the parsed
header: base type not multipart/related, or a missing type or boundary
parameter, answers 400; a type parameter differing from the exact string
application/dicom answers 415; otherwise processing proceeds with the
boundary parameter's value. -/
def StowCheckContentType (header : String) : ValidationResult :=
  let parsed := ParseContentType header
  if parsed.1 ≠ "multipart/related" ∨
     (lookupAttr parsed.2 "type").isNone ∨
     (lookupAttr parsed.2 "boundary").isNone then
    .badRequest
  else
    let boundary := (lookupAttr parsed.2 "boundary").getD ""
    if (lookupAttr parsed.2 "type").getD "" ≠ "application/dicom" then
      .unsupportedMediaType
    else
      .proceed boundary

/-! ### Resource resolution (DicomWebClient.cpp, ParseStowRequest) -/

/-- The object store as seen through the REST lookups of `ParseStowRequest`:
for each hierarchy level, whether `/{level}/{id}` answers, and the JSON body
of `/{level}/{id}/instances` (`none` = the call fails).  `instanceGet` is the
body of `/instances/{id}`. -/
structure Store where
  instanceGet : String → Option Json
  seriesGet : String → Bool
  seriesInstances : String → Option Json
  studyGet : String → Bool
  studyInstances : String → Option Json
  patientGet : String → Bool
  patientInstances : String → Option Json

/-- Embedding of `AddInstance` (lines 36-49): the JSON record must be an
object whose member ID is a string, otherwise InternalError. -/
def AddInstance (j : Json) : Except ErrorCode String :=
  match j with
  | .obj fields =>
    match lookupField fields "ID" with
    | some (.str s) => .ok s
    | _ => .error .InternalError
  | _ => .error .InternalError

/-- The level lookup of lines 147-152: the resource exists at the level and
its instance enumeration succeeds. -/
def tryChildren (levelGet : String → Bool)
    (levelInstances : String → Option Json) (res : String) : Option Json :=
  if levelGet res then levelInstances res else none

/-- Expansion of one resource string by `ParseStowRequest` (lines 134-167):
an empty identifier throws UnknownResource; otherwise the instance level is
tried first, then series, study and patient in that order (each requiring
both an existence lookup and an instance enumeration); a matched non-instance
level must enumerate to a JSON array whose entries all parse via
`AddInstance`; if no level matches, UnknownResource. -/
def expandResource (store : Store) (res : String) :
    Except ErrorCode (List String) :=
  if res = "" then .error .UnknownResource
  else
    match store.instanceGet res with
    | some tmp => (AddInstance tmp).map (fun id => [id])
    | none =>
      let attempt : Option Json :=
        match tryChildren store.seriesGet store.seriesInstances res with
        | some v => some v
        | none =>
          match tryChildren store.studyGet store.studyInstances res with
          | some v => some v
          | none => tryChildren store.patientGet store.patientInstances res
      match attempt with
      | some (.arr elts) => elts.mapM AddInstance
      | some _ => .error .InternalError
      | none => .error .UnknownResource

/-- Following the claim's words, a resolver that tries the four hierarchy
levels in the order patient, study, series, instance and accepts the first
level whose existence lookup answers, enumerating descendants for the
non-instance levels.  Used only to compare against `expandResource`. -/
def expandResourceClaimOrder (store : Store) (res : String) :
    Except ErrorCode (List String) :=
  if res = "" then .error .UnknownResource
  else if store.patientGet res then
    match store.patientInstances res with
    | some (.arr elts) => elts.mapM AddInstance
    | _ => .error .InternalError
  else if store.studyGet res then
    match store.studyInstances res with
    | some (.arr elts) => elts.mapM AddInstance
    | _ => .error .InternalError
  else if store.seriesGet res then
    match store.seriesInstances res with
    | some (.arr elts) => elts.mapM AddInstance
    | _ => .error .InternalError
  else
    match store.instanceGet res with
    | some tmp => (AddInstance tmp).map (fun id => [id])
    | none => .error .UnknownResource

/-! ### Helper lemmas -/

/-- A well-formed STOW-RS success response acknowledging `k` instances:
tag 00081199 holds a Value array of `k` items, the failure sequences are
absent. -/
def stowOkResponse (k : Nat) : Json :=
  .obj [("00081199", .obj [("Value", .arr (List.replicate k .null))])]

/-- A remote server model answering every flush with a well-formed
acknowledgement of exactly the flushed instance count. -/
def goodRespond : Nat → Option Json := fun k => some (stowOkResponse k)

lemma checkStowResponse_ok (k : Nat) :
    CheckStowResponse (some (stowOkResponse k)) k = .ok () := by
  have h1 : ToUpperCase "00081199" = "00081199" := by decide
  have h2 : ToUpperCase "00081198" = "00081198" := by decide
  have h3 : ToLowerCase "00081198" = "00081198" := by decide
  have h4 : ToUpperCase "0008119A" = "0008119A" := by decide
  have h5 : ToLowerCase "0008119A" = "0008119a" := by decide
  have h6 : ToLowerCase "00081199" = "00081199" := by decide
  simp [CheckStowResponse, stowOkResponse, GetSequenceSize, checkOptionalEmpty,
        Json.lookup, lookupField, h1, h2, h3, h4, h5, h6]

lemma sendStowChunks_flush_good (cfg : StowConfig) (a : Accum) (force : Bool)
    (h : shouldFlush cfg a force = true) :
    SendStowChunks cfg goodRespond a force = .ok (⟨0, 0⟩, some a.countInstances) := by
  simp [SendStowChunks, h, goodRespond, checkStowResponse_ok]

lemma sendStowChunks_noflush (cfg : StowConfig) (respond : Nat → Option Json)
    (a : Accum) (force : Bool) (h : shouldFlush cfg a force = false) :
    SendStowChunks cfg respond a force = .ok (a, none) := by
  simp [SendStowChunks, h]

lemma shouldFlush_noByte (m : Nat) (hm : m ≠ 0) (a : Accum) :
    shouldFlush ⟨m, 0⟩ a false = decide (m ≤ a.countInstances) := by
  simp [shouldFlush, hm]

lemma shouldFlush_force (m : Nat) (a : Accum) (hr : a.countInstances < m) :
    shouldFlush ⟨m, 0⟩ a true = decide (0 < a.countInstances) := by
  simp [shouldFlush, Nat.not_le.mpr hr]

lemma div_mod_ceil (m q r : Nat) (hm : 0 < m) (hr : r < m) :
    (m * q + r + m - 1) / m = q + if r = 0 then 0 else 1 := by
  by_cases h0 : r = 0
  · subst h0
    rw [if_pos rfl, Nat.add_zero, Nat.add_sub_assoc hm,
        Nat.mul_add_div hm, Nat.div_eq_of_lt (Nat.sub_lt hm Nat.one_pos)]
  · rw [if_neg h0]
    have h1 : 1 ≤ r := Nat.pos_of_ne_zero h0
    have h2 : m * q + r + m - 1 = m * (q + 1) + (r - 1) := by
      have h3 : r + m - 1 = m + (r - 1) := by omega
      calc m * q + r + m - 1 = m * q + (r + m) - 1 := by rw [Nat.add_assoc]
        _ = m * q + (r + m - 1) := by rw [Nat.add_sub_assoc (by omega)]
        _ = m * q + (m + (r - 1)) := by rw [h3]
        _ = m * q + m + (r - 1) := by rw [Nat.add_assoc]
        _ = m * (q + 1) + (r - 1) := by ring_nf
    rw [h2, Nat.mul_add_div hm, Nat.div_eq_of_lt (by omega), Nat.add_zero]

lemma pred_add_div (m n : Nat) (hm : 0 < m) :
    (n + m - 1) / m = n / m + if n % m = 0 then 0 else 1 := by
  have h := Nat.div_add_mod n m
  calc (n + m - 1) / m = (m * (n / m) + n % m + m - 1) / m := by rw [h]
    _ = n / m + if n % m = 0 then 0 else 1 :=
        div_mod_ceil m (n / m) (n % m) hm (Nat.mod_lt _ hm)

lemma stowAddLoop_good (m : Nat) (hm : 0 < m) (boundary : String)
    (sizes : List Nat) :
    ∀ (a : Accum) (fl : List Nat), a.countInstances < m →
      ∃ bs, stowAddLoop ⟨m, 0⟩ goodRespond boundary (sizes.map some) a fl =
        .ok (⟨bs, (a.countInstances + sizes.length) % m⟩,
             fl ++ List.replicate ((a.countInstances + sizes.length) / m) m) := by
  induction sizes with
  | nil =>
    intro a fl h
    exact ⟨a.bufferSize, by
      simp [stowAddLoop, Nat.mod_eq_of_lt h, Nat.div_eq_of_lt h]⟩
  | cons s rest ih =>
    intro a fl h
    obtain ⟨bs0, c⟩ := a
    simp only [List.map_cons, stowAddLoop, List.length_cons]
    by_cases hle : m ≤ c + 1
    · have hcm : c + 1 = m := le_antisymm (Nat.succ_le_of_lt h) hle
      have hsf : shouldFlush ⟨m, 0⟩ ⟨bs0 + partBytes boundary s, c + 1⟩ false = true := by
        rw [shouldFlush_noByte m hm.ne']
        exact decide_eq_true hle
      rw [sendStowChunks_flush_good _ _ _ hsf]
      obtain ⟨bs, hrec⟩ := ih ⟨0, 0⟩ (fl ++ [c + 1]) hm
      refine ⟨bs, ?_⟩
      simp only [hrec]
      have hmod : (c + (rest.length + 1)) % m = (0 + rest.length) % m := by
        have : c + (rest.length + 1) = rest.length + m := by omega
        rw [this, Nat.add_mod_right, Nat.zero_add]
      have hdiv : (c + (rest.length + 1)) / m = (0 + rest.length) / m + 1 := by
        have : c + (rest.length + 1) = rest.length + m := by omega
        rw [this, Nat.add_div_right _ hm, Nat.zero_add]
      rw [hmod, hdiv, hcm]
      simp only [List.append_assoc, List.singleton_append, Except.ok.injEq,
                 Prod.mk.injEq, Nat.zero_add, true_and]
      rw [List.replicate_succ]
    · have hlt : c + 1 < m := Nat.lt_of_not_le hle
      have hsf : shouldFlush ⟨m, 0⟩ ⟨bs0 + partBytes boundary s, c + 1⟩ false = false := by
        rw [shouldFlush_noByte m hm.ne']
        exact decide_eq_false hle
      rw [sendStowChunks_noflush _ _ _ _ hsf]
      obtain ⟨bs, hrec⟩ := ih ⟨bs0 + partBytes boundary s, c + 1⟩ fl hlt
      refine ⟨bs, ?_⟩
      simp only [hrec]
      have harith : c + 1 + rest.length = c + (rest.length + 1) := by omega
      rw [harith]

/-! ### Claim theorems -/

/-- C1: `SendStowChunks` flushes if and only if (force and the batch is
non-empty) or (the instance limit is non-zero and reached) or (the byte limit
is non-zero and reached); a zero limit disables its trigger, and when no
condition holds the accumulator is returned unchanged and nothing is sent
(the result does not consult the remote at all). -/
theorem sendStowChunks_flush_iff (cfg : StowConfig) (respond : Nat → Option Json)
    (a : Accum) (force : Bool) :
    (shouldFlush cfg a force = true ↔
      ((force = true ∧ 0 < a.countInstances) ∨
       (cfg.maxInstances ≠ 0 ∧ cfg.maxInstances ≤ a.countInstances) ∨
       (cfg.maxSize ≠ 0 ∧ cfg.maxSize ≤ a.bufferSize))) ∧
    (shouldFlush cfg a force = false →
      SendStowChunks cfg respond a force = .ok (a, none)) ∧
    (shouldFlush cfg a force = true →
      ∀ a' : Accum, SendStowChunks cfg respond a force ≠ .ok (a', none)) := by
  refine ⟨?_, ?_, ?_⟩
  · simp [shouldFlush, or_assoc]
  · intro h
    simp [SendStowChunks, h]
  · intro h a'
    simp only [SendStowChunks, h, if_true]
    match hc : CheckStowResponse (respond a.countInstances) a.countInstances with
    | .ok () => simp
    | .error e => simp

/-- C1 witness: with limits 10 instances / byte limit disabled, an
accumulator of 5 instances and no force, no flush happens and the state is
unchanged. -/
theorem sendStowChunks_flush_iff_witness :
    SendStowChunks ⟨10, 0⟩ (fun _ => none) ⟨100, 5⟩ false = .ok (⟨100, 5⟩, none) :=
  (sendStowChunks_flush_iff ⟨10, 0⟩ (fun _ => none) ⟨100, 5⟩ false).2.1 (by decide)

/-- C2: with the byte threshold disabled and a positive instance limit `m`,
running the STOW client over `n` fetchable instances against a well-behaved
remote performs exactly `⌈n / m⌉` flushes whose flushed counts sum to `n`,
and answers the empty JSON object; the final forced flush fires for any
non-empty remainder, including a batch of a single instance. -/
theorem stowClient_flush_count (m : Nat) (hm : 0 < m) (boundary : String)
    (sizes : List Nat) :
    ∃ fl, StowClientRun ⟨m, 0⟩ goodRespond boundary (sizes.map some) =
            .ok (fl, "\x7b\x7d\n") ∧
          fl.sum = sizes.length ∧
          fl.length = (sizes.length + m - 1) / m := by
  obtain ⟨bs, hloop⟩ := stowAddLoop_good m hm boundary sizes ⟨0, 0⟩ [] (by simpa using hm)
  simp only [Nat.zero_add] at hloop
  have hrm : sizes.length % m < m := Nat.mod_lt _ hm
  by_cases h0 : sizes.length % m = 0
  · refine ⟨List.replicate (sizes.length / m) m, ?_, ?_, ?_⟩
    · have hsf : shouldFlush ⟨m, 0⟩ ⟨bs, sizes.length % m⟩ true = false := by
        rw [shouldFlush_force m _ hrm]
        simp [h0]
      simp only [StowClientRun, hloop, sendStowChunks_noflush _ _ _ _ hsf]
      simp
    · rw [List.sum_replicate, smul_eq_mul]
      exact Nat.div_mul_cancel (Nat.dvd_of_mod_eq_zero h0)
    · simp [pred_add_div m sizes.length hm, h0]
  · refine ⟨List.replicate (sizes.length / m) m ++ [sizes.length % m], ?_, ?_, ?_⟩
    · have hsf : shouldFlush ⟨m, 0⟩ ⟨bs, sizes.length % m⟩ true = true := by
        rw [shouldFlush_force m _ hrm]
        exact decide_eq_true (Nat.pos_of_ne_zero h0)
      simp only [StowClientRun, hloop, sendStowChunks_flush_good _ _ _ hsf]
      simp
    · simp [List.sum_replicate, smul_eq_mul]
      rw [mul_comm]
      exact Nat.div_add_mod _ _
    · simp [pred_add_div m sizes.length hm, h0]

/-- C2 witness: 25 fetchable instances under a limit of 10 yield three
flushes summing to 25. -/
theorem stowClient_flush_count_witness :
    ∃ fl, StowClientRun ⟨10, 0⟩ goodRespond "b" ((List.replicate 25 100).map some) =
            .ok (fl, "\x7b\x7d\n") ∧
          fl.sum = 25 ∧ fl.length = 3 := by
  have h := stowClient_flush_count 10 (by decide) "b" (List.replicate 25 100)
  simpa using h

lemma getSeq_error_code (answer : Json) (tag : String) (b : Bool)
    (e : ErrorCode) (h : GetSequenceSize answer tag b = .error e) :
    e = .NetworkProtocol := by
  simp only [GetSequenceSize] at h
  split at h
  · split at h <;> simp_all
  · split at h <;> simp_all

lemma checkOptionalEmpty_error_code (response : Json) (tag : String)
    (e : ErrorCode) (h : checkOptionalEmpty response tag = .error e) :
    e = .NetworkProtocol := by
  simp only [checkOptionalEmpty] at h
  split at h
  · rename_i e' heq
    injection h with h'
    subst h'
    exact getSeq_error_code _ _ _ _ heq
  · simp_all
  · split at h <;> simp_all

lemma getSeq199_eq (fields : List (String × Json)) (b : Bool) :
    GetSequenceSize (.obj fields) "00081199" b =
      match lookupField fields "00081199" with
      | none => if b then .error .NetworkProtocol else .ok none
      | some v =>
        match v.lookup "Value" with
        | some (.arr elts) => .ok (some elts.length)
        | _ => .error .NetworkProtocol := by
  have h1 : ToUpperCase "00081199" = "00081199" := by decide
  have h2 : ToLowerCase "00081199" = "00081199" := by decide
  simp only [GetSequenceSize, h1, h2, Json.lookup]
  cases lookupField fields "00081199" <;> rfl

lemma checkStow_obj (fields : List (String × Json)) (n : Nat) :
    CheckStowResponse (some (.obj fields)) n =
      match GetSequenceSize (.obj fields) "00081199" true with
      | .error e => .error e
      | .ok none => .error .NetworkProtocol
      | .ok (some size) =>
        if size ≠ n then .error .NetworkProtocol
        else
          match checkOptionalEmpty (.obj fields) "00081198" with
          | .error e => .error e
          | .ok () => checkOptionalEmpty (.obj fields) "0008119A" := by
  by_cases h1 : (lookupField fields "00081199").isNone
  · have h2 : lookupField fields "00081199" = none := by
      simpa [Option.isNone_iff_eq_none] using h1
    have h3 : GetSequenceSize (.obj fields) "00081199" true = .error .NetworkProtocol := by
      rw [getSeq199_eq, h2]
      simp
    simp [CheckStowResponse, h1, h3]
  · simp [CheckStowResponse, h1]

/-- C3: a flush succeeds only if the remote STOW response is a JSON object
whose mandatory sequence 00081199 holds exactly the number of instances sent;
a differing item count, a non-empty optional failed sequence 00081198 or
other-failures sequence 0008119A, a non-object response or an unparseable
body all fail the flush with the protocol error. -/
theorem stowResponse_validation (r : Json) (n : Nat) :
    (CheckStowResponse (some r) n = .ok () →
       r.isObj = true ∧ GetSequenceSize r "00081199" true = .ok (some n)) ∧
    (∀ m', GetSequenceSize r "00081199" true = .ok (some m') → m' ≠ n →
       CheckStowResponse (some r) n = .error .NetworkProtocol) ∧
    (∀ k, GetSequenceSize r "00081198" false = .ok (some k) → k ≠ 0 →
       CheckStowResponse (some r) n = .error .NetworkProtocol) ∧
    (∀ k, GetSequenceSize r "0008119A" false = .ok (some k) → k ≠ 0 →
       CheckStowResponse (some r) n = .error .NetworkProtocol) ∧
    (r.isObj = false → CheckStowResponse (some r) n = .error .NetworkProtocol) ∧
    CheckStowResponse none n = .error .NetworkProtocol := by
  refine ⟨?_, ?_, ?_, ?_, ?_, rfl⟩
  · intro h
    cases r with
    | obj fields =>
      refine ⟨rfl, ?_⟩
      rw [checkStow_obj] at h
      cases hg : GetSequenceSize (.obj fields) "00081199" true with
      | error e => rw [hg] at h; simp at h
      | ok v =>
        cases v with
        | none => rw [hg] at h; simp at h
        | some size =>
          rw [hg] at h
          by_cases hs : size = n
          · rw [hs]
          · simp [hs] at h
    | null => simp [CheckStowResponse] at h
    | str s => simp [CheckStowResponse] at h
    | num v => simp [CheckStowResponse] at h
    | arr l => simp [CheckStowResponse] at h
  · intro m' hg hne
    cases r with
    | obj fields => rw [checkStow_obj, hg]; simp [hne]
    | null => simp [GetSequenceSize, ToUpperCase, ToLowerCase, Json.lookup] at hg
    | str s => simp [GetSequenceSize, ToUpperCase, ToLowerCase, Json.lookup] at hg
    | num v => simp [GetSequenceSize, ToUpperCase, ToLowerCase, Json.lookup] at hg
    | arr l => simp [GetSequenceSize, ToUpperCase, ToLowerCase, Json.lookup] at hg
  · intro k hk hkne
    cases r with
    | obj fields =>
      rw [checkStow_obj]
      cases hg : GetSequenceSize (.obj fields) "00081199" true with
      | error e => rw [getSeq_error_code _ _ _ _ hg]
      | ok v =>
        cases v with
        | none => rfl
        | some size =>
          by_cases hs : size = n
          · have hco : checkOptionalEmpty (.obj fields) "00081198" = .error .NetworkProtocol := by
              simp [checkOptionalEmpty, hk, hkne]
            simp [hs, hco]
          · simp [hs]
    | null => simp [GetSequenceSize, ToUpperCase, ToLowerCase, Json.lookup] at hk
    | str s => simp [GetSequenceSize, ToUpperCase, ToLowerCase, Json.lookup] at hk
    | num v => simp [GetSequenceSize, ToUpperCase, ToLowerCase, Json.lookup] at hk
    | arr l => simp [GetSequenceSize, ToUpperCase, ToLowerCase, Json.lookup] at hk
  · intro k hk hkne
    cases r with
    | obj fields =>
      rw [checkStow_obj]
      cases hg : GetSequenceSize (.obj fields) "00081199" true with
      | error e => rw [getSeq_error_code _ _ _ _ hg]
      | ok v =>
        cases v with
        | none => rfl
        | some size =>
          by_cases hs : size = n
          · have h119a : checkOptionalEmpty (.obj fields) "0008119A" = .error .NetworkProtocol := by
              simp [checkOptionalEmpty, hk, hkne]
            cases hco : checkOptionalEmpty (.obj fields) "00081198" with
            | error e => simp [hs, hco, checkOptionalEmpty_error_code _ _ _ hco]
            | ok u => simp [hs, hco, h119a]
          · simp [hs]
    | null => simp [GetSequenceSize, ToUpperCase, ToLowerCase, Json.lookup] at hk
    | str s => simp [GetSequenceSize, ToUpperCase, ToLowerCase, Json.lookup] at hk
    | num v => simp [GetSequenceSize, ToUpperCase, ToLowerCase, Json.lookup] at hk
    | arr l => simp [GetSequenceSize, ToUpperCase, ToLowerCase, Json.lookup] at hk
  · intro h
    cases r <;> simp_all [CheckStowResponse, Json.isObj]

/-- C3 witness: a response acknowledging 2 instances fails a flush of 3 with
the protocol error. -/
theorem stowResponse_validation_witness :
    CheckStowResponse (some (stowOkResponse 2)) 3 = .error .NetworkProtocol :=
  (stowResponse_validation (stowOkResponse 2) 3).2.1 2 (by rfl) (by decide)

lemma stowStep_some (wadoBase expectedStudy : String) (st : StowState)
    (item : MultipartItem)
    (hct : item.contentType = "" ∨ item.contentType = "application/dicom") :
    ∃ st', stowStep wadoBase expectedStudy st item = some st' ∧
      st'.success.length + st'.failed.length =
        st.success.length + st.failed.length + 1 := by
  have hcond : ¬(item.contentType ≠ "" ∧ item.contentType ≠ "application/dicom") := by
    tauto
  simp only [stowStep, if_neg hcond]
  by_cases hd : isDiscarded expectedStudy item = true
  · rw [if_pos hd]
    exact ⟨_, rfl, by simp; omega⟩
  · rw [if_neg hd]
    by_cases hf : st.isFirst
    · by_cases hs : item.storeOk = true
      · rw [if_pos hf]
        simp only [hs, if_true]
        exact ⟨_, rfl, by simp; omega⟩
      · rw [if_pos hf]
        simp only [hs, if_false, Bool.false_eq_true]
        exact ⟨_, rfl, by simp; omega⟩
    · by_cases hs : item.storeOk = true
      · rw [if_neg hf]
        simp only [hs, if_true]
        exact ⟨_, rfl, by simp; omega⟩
      · rw [if_neg hf]
        simp only [hs, if_false, Bool.false_eq_true]
        exact ⟨_, rfl, by simp; omega⟩

lemma stowProcessFrom_partition (wadoBase expectedStudy : String)
    (items : List MultipartItem)
    (h : ∀ it ∈ items, it.contentType = "" ∨ it.contentType = "application/dicom") :
    ∀ st : StowState, ∃ st',
      stowProcessFrom wadoBase expectedStudy st items = some st' ∧
      st'.success.length + st'.failed.length =
        st.success.length + st.failed.length + items.length := by
  induction items with
  | nil => intro st; exact ⟨st, rfl, by simp⟩
  | cons item rest ih =>
    intro st
    have hct := h item (by simp)
    obtain ⟨st1, hstep, hlen⟩ := stowStep_some wadoBase expectedStudy st item hct
    obtain ⟨st', hrest, hlen'⟩ :=
      ih (fun it hit => h it (by simp [hit])) st1
    refine ⟨st', ?_, ?_⟩
    · simp [stowProcessFrom, hstep, hrest]
    · rw [hlen', hlen, List.length_cons]
      omega

/-- C4: a STOW-RS server run that processes all its parts (none aborts on a
bad content type) appends exactly one status record per part to exactly one
of the success and failed sequences, so their lengths sum to the number of
input parts. -/
theorem stow_server_partition (wadoBase expectedStudy : String)
    (items : List MultipartItem)
    (h : ∀ it ∈ items, it.contentType = "" ∨ it.contentType = "application/dicom") :
    ∃ st, StowCallbackRun wadoBase expectedStudy items = some st ∧
      st.success.length + st.failed.length = items.length := by
  obtain ⟨st', h1, h2⟩ :=
    stowProcessFrom_partition wadoBase expectedStudy items h ⟨true, none, [], [], []⟩
  exact ⟨st', h1, by simpa using h2⟩

/-- C4 witness: two parts (one stored, one failing the store) yield two
status records in total across the two sequences. -/
theorem stow_server_partition_witness :
    ∃ st, StowCallbackRun "http://s/" ""
        [⟨"", "S1", "E1", "C1", "I1", true⟩, ⟨"", "S1", "E1", "C2", "I2", false⟩] =
        some st ∧
      st.success.length + st.failed.length = 2 := by
  have h := stow_server_partition "http://s/" ""
    [⟨"", "S1", "E1", "C1", "I1", true⟩, ⟨"", "S1", "E1", "C2", "I2", false⟩]
    (by intro it hit; simp at hit; rcases hit with h1 | h1 <;> simp [h1])
  simpa using h

/-- C5: under a study restriction, a part from another study is recorded in
the success sequence as warning B006, with the failed sequence and the list
of store writes unchanged (not stored, not a failure); a part that passes the
restriction but whose store write fails is recorded in the failed sequence
with failure code 0110, its store write having been attempted. -/
theorem stow_warning_failure_records (wadoBase expectedStudy : String)
    (st : StowState) (item : MultipartItem)
    (hct : item.contentType = "" ∨ item.contentType = "application/dicom") :
    (expectedStudy ≠ "" → item.studyInstanceUid ≠ expectedStudy →
      stowStep wadoBase expectedStudy st item =
        some { st with success := st.success ++
          [⟨item.sopClassUid, item.sopInstanceUid, .warningB006⟩] }) ∧
    ((expectedStudy = "" ∨ item.studyInstanceUid = expectedStudy) →
      item.storeOk = false →
      ∀ st', stowStep wadoBase expectedStudy st item = some st' →
        st'.failed = st.failed ++
          [⟨item.sopClassUid, item.sopInstanceUid, .failure0110⟩] ∧
        st'.success = st.success ∧
        st'.posted = st.posted ++ [item.sopInstanceUid]) := by
  have hcond : ¬(item.contentType ≠ "" ∧ item.contentType ≠ "application/dicom") := by
    tauto
  constructor
  · intro he hs
    have hd : isDiscarded expectedStudy item = true := by
      simp [isDiscarded, he, hs]
    simp [stowStep, if_neg hcond, hd]
  · intro hmatch hs st' hstep
    have hd : isDiscarded expectedStudy item = false := by
      rcases hmatch with h1 | h1 <;> simp [isDiscarded, h1]
    simp only [stowStep, if_neg hcond, hd, Bool.false_eq_true, if_false, hs] at hstep
    by_cases hf : st.isFirst
    · simp only [hf, if_true] at hstep
      cases hstep
      simp
    · simp only [hf, if_false] at hstep
      cases hstep
      simp

/-- C5 witness: with expected study S, a part from study T is recorded as
warning B006 in the success sequence, nothing failed, nothing posted. -/
theorem stow_warning_failure_records_witness :
    stowStep "http://s/" "S" ⟨true, none, [], [], []⟩ ⟨"", "T", "E", "C", "I", true⟩ =
      some ⟨true, none, [⟨"C", "I", .warningB006⟩], [], []⟩ :=
  (stow_warning_failure_records "http://s/" "S" ⟨true, none, [], [], []⟩
    ⟨"", "T", "E", "C", "I", true⟩ (Or.inl rfl)).1 (by decide) (by decide)

/-- C6 counterexample: for a header whose base media type is not
multipart/related (with type and boundary parameters present and well
formed), `StowCallback` answers 400 Bad Request (line 139), not the 415
Unsupported Media Type the claim asserts for every framing violation. -/
theorem stow_contentType_counterexample :
    StowCheckContentType "application/json; type=application/dicom; boundary=abc123" =
      .badRequest ∧
    StowCheckContentType "application/json; type=application/dicom; boundary=abc123" ≠
      .unsupportedMediaType := by
  constructor
  · rfl
  · decide

/-- C6 amended: the parsed Content-Type is answered 400 Bad Request unless
the base media type is multipart/related and both a type and a boundary
parameter are present; with those present, it is answered 415 Unsupported
Media Type unless the type parameter equals the exact string
application/dicom; only then does processing proceed, with the boundary
parameter's value (which may be empty). -/
theorem stow_contentType_validation (header : String) :
    (StowCheckContentType header = .badRequest ↔
      ((ParseContentType header).1 ≠ "multipart/related" ∨
       lookupAttr (ParseContentType header).2 "type" = none ∨
       lookupAttr (ParseContentType header).2 "boundary" = none)) ∧
    (StowCheckContentType header = .unsupportedMediaType ↔
      ((ParseContentType header).1 = "multipart/related" ∧
       (∃ t, lookupAttr (ParseContentType header).2 "type" = some t ∧
             t ≠ "application/dicom") ∧
       (lookupAttr (ParseContentType header).2 "boundary").isSome)) ∧
    (∀ b, StowCheckContentType header = .proceed b ↔
      ((ParseContentType header).1 = "multipart/related" ∧
       lookupAttr (ParseContentType header).2 "type" = some "application/dicom" ∧
       lookupAttr (ParseContentType header).2 "boundary" = some b)) := by
  by_cases happ : (ParseContentType header).1 = "multipart/related"
  · cases hty : lookupAttr (ParseContentType header).2 "type" with
    | none => simp [StowCheckContentType, happ, hty]
    | some t =>
      cases hb : lookupAttr (ParseContentType header).2 "boundary" with
      | none => simp [StowCheckContentType, happ, hty, hb]
      | some bv =>
        by_cases hdi : t = "application/dicom"
        · subst hdi
          refine ⟨by simp [StowCheckContentType, happ, hty, hb], ?_, ?_⟩
          · simp [StowCheckContentType, happ, hty, hb]
          · intro b
            simp [StowCheckContentType, happ, hty, hb, eq_comm]
        · refine ⟨by simp [StowCheckContentType, happ, hty, hb, hdi], ?_, ?_⟩
          · simp [StowCheckContentType, happ, hty, hb, hdi]
          · intro b
            simp [StowCheckContentType, happ, hty, hb, hdi]
  · refine ⟨by simp [StowCheckContentType, happ], ?_, ?_⟩
    · simp [StowCheckContentType, happ]
    · intro b
      simp [StowCheckContentType, happ]

/-- C6 amended witness: a fully well-formed header proceeds with its
boundary value. -/
theorem stow_contentType_validation_witness :
    StowCheckContentType "multipart/related; type=application/dicom; boundary=xyz" =
      .proceed "xyz" :=
  ((stow_contentType_validation
      "multipart/related; type=application/dicom; boundary=xyz").2.2 "xyz").mpr
    ⟨by decide, by decide, by decide⟩

/-- A store in which the identifier r names both an existing instance
(with ID I) and an existing patient (with two child instances P1, P2). -/
def dualStore : Store where
  instanceGet := fun id =>
    if id = "r" then some (.obj [("ID", .str "I")]) else none
  seriesGet := fun _ => false
  seriesInstances := fun _ => none
  studyGet := fun _ => false
  studyInstances := fun _ => none
  patientGet := fun id => id == "r"
  patientInstances := fun id =>
    if id = "r" then
      some (.arr [.obj [("ID", .str "P1")], .obj [("ID", .str "P2")]])
    else none

/-- C7 counterexample: on a store where the identifier exists both as an
instance and as a patient, `ParseStowRequest` resolves the instance level
first (lines 142-152), whereas a resolver following the claim's order
(patient, study, series, instance) would enumerate the patient's children;
the two disagree. -/
theorem resolver_order_counterexample :
    expandResource dualStore "r" = .ok ["I"] ∧
    expandResourceClaimOrder dualStore "r" = .ok ["P1", "P2"] ∧
    expandResource dualStore "r" ≠ expandResourceClaimOrder dualStore "r" := by
  refine ⟨rfl, rfl, ?_⟩
  have h1 : expandResource dualStore "r" = .ok ["I"] := rfl
  have h2 : expandResourceClaimOrder dualStore "r" = .ok ["P1", "P2"] := rfl
  rw [h1, h2]
  simp

/-- C7 amended: the resolver tries the four hierarchy levels in the order
instance, series, study, patient; the instance level needs one lookup, the
other levels need an existence lookup plus a successful instance
enumeration; the first level that matches decides the result, and only when
no level matches does resolution fail with UnknownResource. -/
theorem resolver_order (store : Store) (res : String) (hres : res ≠ "") :
    (∀ j, store.instanceGet res = some j →
       expandResource store res = (AddInstance j).map (fun id => [id])) ∧
    (store.instanceGet res = none →
     ∀ elts, tryChildren store.seriesGet store.seriesInstances res = some (.arr elts) →
       expandResource store res = elts.mapM AddInstance) ∧
    (store.instanceGet res = none →
     tryChildren store.seriesGet store.seriesInstances res = none →
     ∀ elts, tryChildren store.studyGet store.studyInstances res = some (.arr elts) →
       expandResource store res = elts.mapM AddInstance) ∧
    (store.instanceGet res = none →
     tryChildren store.seriesGet store.seriesInstances res = none →
     tryChildren store.studyGet store.studyInstances res = none →
     ∀ elts, tryChildren store.patientGet store.patientInstances res = some (.arr elts) →
       expandResource store res = elts.mapM AddInstance) ∧
    (store.instanceGet res = none →
     tryChildren store.seriesGet store.seriesInstances res = none →
     tryChildren store.studyGet store.studyInstances res = none →
     tryChildren store.patientGet store.patientInstances res = none →
       expandResource store res = .error .UnknownResource) := by
  refine ⟨?_, ?_, ?_, ?_, ?_⟩
  · intro j hj
    simp [expandResource, hres, hj]
  · intro hi elts hser
    simp [expandResource, hres, hi, hser]
  · intro hi hser elts hstu
    simp [expandResource, hres, hi, hser, hstu]
  · intro hi hser hstu elts hpat
    simp [expandResource, hres, hi, hser, hstu, hpat]
  · intro hi hser hstu hpat
    simp [expandResource, hres, hi, hser, hstu, hpat]

/-- C7 amended witness: on the dual store the instance level wins. -/
theorem resolver_order_witness :
    expandResource dualStore "r" = .ok ["I"] :=
  (resolver_order dualStore "r" (by decide)).1 (.obj [("ID", .str "I")]) rfl

/-- C8 counterexample: an empty resource identifier makes `ParseStowRequest`
throw UnknownResource (line 137), not the input-format error
(`MalformedInput`, Orthanc's BadFileFormat) the claim asserts. -/
theorem empty_resource_counterexample :
    expandResource dualStore "" = .error .UnknownResource ∧
    expandResource dualStore "" ≠ .error .BadFileFormat := by
  constructor
  · rfl
  · have h1 : expandResource dualStore "" = .error .UnknownResource := rfl
    rw [h1]
    simp

/-- C8 amended: an empty identifier fails with UnknownResource, and a
descendant entry that does not parse as an object with a string ID field
fails the expansion with InternalError. -/
theorem empty_resource_error (store : Store) :
    expandResource store "" = .error .UnknownResource ∧
    (∀ res j, res ≠ "" → store.instanceGet res = none →
      tryChildren store.seriesGet store.seriesInstances res = some (.arr [j]) →
      AddInstance j = .error .InternalError →
      expandResource store res = .error .InternalError) := by
  constructor
  · simp [expandResource]
  · intro res j hres hinst hser haj
    simp [expandResource, hres, hinst, hser, haj, List.mapM.loop, Except.bind]

/-- A store whose series level matches the identifier x but enumerates a
descendant entry that is not an object bearing a string ID. -/
def badChildStore : Store where
  instanceGet := fun _ => none
  seriesGet := fun id => id == "x"
  seriesInstances := fun id =>
    if id = "x" then some (.arr [.str "oops"]) else none
  studyGet := fun _ => false
  studyInstances := fun _ => none
  patientGet := fun _ => false
  patientInstances := fun _ => none

/-- C8 amended witness: the malformed descendant entry yields InternalError. -/
theorem empty_resource_error_witness :
    expandResource badChildStore "x" = .error .InternalError :=
  (empty_resource_error badChildStore).2 "x" (.str "oops") (by decide) rfl rfl rfl

lemma stowStep_notFirst (wadoBase expectedStudy : String) (st : StowState)
    (item : MultipartItem)
    (hct : item.contentType = "" ∨ item.contentType = "application/dicom")
    (hf : st.isFirst = false) :
    ∃ st', stowStep wadoBase expectedStudy st item = some st' ∧
      st'.isFirst = false ∧ st'.retrieveUrl = st.retrieveUrl := by
  have hcond : ¬(item.contentType ≠ "" ∧ item.contentType ≠ "application/dicom") := by
    tauto
  simp only [stowStep, if_neg hcond]
  by_cases hd : isDiscarded expectedStudy item = true
  · rw [if_pos hd]
    exact ⟨_, rfl, hf, rfl⟩
  · rw [if_neg hd]
    simp only [hf, Bool.false_eq_true, if_false]
    by_cases hs : item.storeOk = true
    · simp only [hs, if_true]
      exact ⟨_, rfl, rfl, rfl⟩
    · simp only [hs, Bool.false_eq_true, if_false]
      exact ⟨_, rfl, rfl, rfl⟩

lemma stowStep_discarded (wadoBase expectedStudy : String) (st : StowState)
    (item : MultipartItem)
    (hct : item.contentType = "" ∨ item.contentType = "application/dicom")
    (hd : isDiscarded expectedStudy item = true) :
    stowStep wadoBase expectedStudy st item =
      some { st with success := st.success ++
        [⟨item.sopClassUid, item.sopInstanceUid, .warningB006⟩] } := by
  have hcond : ¬(item.contentType ≠ "" ∧ item.contentType ≠ "application/dicom") := by
    tauto
  simp [stowStep, if_neg hcond, hd]

lemma stowStep_first_accepted (wadoBase expectedStudy : String) (st : StowState)
    (item : MultipartItem)
    (hct : item.contentType = "" ∨ item.contentType = "application/dicom")
    (hf : st.isFirst = true)
    (hd : isDiscarded expectedStudy item = false) :
    ∃ st', stowStep wadoBase expectedStudy st item = some st' ∧
      st'.isFirst = false ∧
      st'.retrieveUrl = some (wadoBase ++ "studies/" ++ item.studyInstanceUid) := by
  have hcond : ¬(item.contentType ≠ "" ∧ item.contentType ≠ "application/dicom") := by
    tauto
  simp only [stowStep, if_neg hcond, hd, Bool.false_eq_true, if_false, hf, if_true]
  by_cases hs : item.storeOk = true
  · simp only [hs, if_true]
    exact ⟨_, rfl, rfl, rfl⟩
  · simp only [hs, Bool.false_eq_true, if_false]
    exact ⟨_, rfl, rfl, rfl⟩

lemma stowProcessFrom_stable (wadoBase expectedStudy : String)
    (items : List MultipartItem)
    (h : ∀ it ∈ items, it.contentType = "" ∨ it.contentType = "application/dicom") :
    ∀ st, st.isFirst = false →
      ∃ st', stowProcessFrom wadoBase expectedStudy st items = some st' ∧
        st'.retrieveUrl = st.retrieveUrl := by
  induction items with
  | nil => intro st _; exact ⟨st, rfl, rfl⟩
  | cons item rest ih =>
    intro st hf
    obtain ⟨st1, hstep, hf1, hurl⟩ :=
      stowStep_notFirst wadoBase expectedStudy st item (h item (by simp)) hf
    obtain ⟨st', hrest, hurl'⟩ := ih (fun it hit => h it (by simp [hit])) st1 hf1
    exact ⟨st', by simp [stowProcessFrom, hstep, hrest], by rw [hurl', hurl]⟩

lemma stowProcessFrom_url (wadoBase expectedStudy : String)
    (items : List MultipartItem)
    (h : ∀ it ∈ items, it.contentType = "" ∨ it.contentType = "application/dicom") :
    ∀ st, st.isFirst = true →
      ∃ st', stowProcessFrom wadoBase expectedStudy st items = some st' ∧
        st'.retrieveUrl =
          (match firstAccepted expectedStudy items with
           | some it => some (wadoBase ++ "studies/" ++ it.studyInstanceUid)
           | none => st.retrieveUrl) := by
  induction items with
  | nil => intro st _; exact ⟨st, rfl, by simp [firstAccepted]⟩
  | cons item rest ih =>
    intro st hf
    by_cases hd : isDiscarded expectedStudy item = true
    · have hfa : firstAccepted expectedStudy (item :: rest) =
          firstAccepted expectedStudy rest := by
        unfold firstAccepted
        apply List.find?_cons_of_neg
        simp [hd]
      have hstep := stowStep_discarded wadoBase expectedStudy st item (h item (by simp)) hd
      obtain ⟨st', hrest, hurl⟩ := ih (fun it hit => h it (by simp [hit]))
        { st with success := st.success ++
            [⟨item.sopClassUid, item.sopInstanceUid, .warningB006⟩] } hf
      refine ⟨st', by simp [stowProcessFrom, hstep, hrest], ?_⟩
      rw [hurl, hfa]
    · have hd' : isDiscarded expectedStudy item = false := by
        simpa using hd
      have hfa : firstAccepted expectedStudy (item :: rest) = some item := by
        unfold firstAccepted
        apply List.find?_cons_of_pos
        simp [hd']
      obtain ⟨st1, hstep, hf1, hurl1⟩ :=
        stowStep_first_accepted wadoBase expectedStudy st item (h item (by simp)) hf hd'
      obtain ⟨st', hrest, hurl'⟩ :=
        stowProcessFrom_stable wadoBase expectedStudy rest
          (fun it hit => h it (by simp [hit])) st1 hf1
      refine ⟨st', by simp [stowProcessFrom, hstep, hrest], ?_⟩
      rw [hurl', hurl1, hfa]

/-- C9 counterexample: with no study restriction, the first part's store
write fails (it lands in the failed sequence) and the second part (study S2)
is the first successfully stored instance, yet the batch-level retrieve URL
is stamped from the first part's study S1 (line 204 runs before the store
attempt), contradicting the claim that it is based on the first successfully
processed instance. -/
theorem retrieveUrl_counterexample :
    (StowCallbackRun "http://w/" ""
        [⟨"", "S1", "E1", "C", "I1", false⟩, ⟨"", "S2", "E2", "C", "I2", true⟩]).map
        (fun st => (st.retrieveUrl, st.success.map StatusRecord.sopInstanceUid,
                    st.failed.map StatusRecord.sopInstanceUid)) =
      some (some "http://w/studies/S1", ["I2"], ["I1"]) ∧
    ("http://w/studies/S1" : String) ≠ "http://w/studies/S2" := by
  constructor
  · rfl
  · decide

/-- C9 amended: a full server run stamps the batch-level retrieve URL
exactly once, from the study of the first part that passes the
study-restriction filter — whether or not its store write then succeeds —
and parts discarded by the restriction never set it. -/
theorem retrieveUrl_first_accepted (wadoBase expectedStudy : String)
    (items : List MultipartItem)
    (h : ∀ it ∈ items, it.contentType = "" ∨ it.contentType = "application/dicom") :
    ∃ st, StowCallbackRun wadoBase expectedStudy items = some st ∧
      st.retrieveUrl = (firstAccepted expectedStudy items).map
        (fun it => wadoBase ++ "studies/" ++ it.studyInstanceUid) := by
  obtain ⟨st, h1, h2⟩ :=
    stowProcessFrom_url wadoBase expectedStudy items h ⟨true, none, [], [], []⟩ rfl
  refine ⟨st, h1, ?_⟩
  rw [h2]
  cases firstAccepted expectedStudy items <;> rfl

/-- C9 amended witness: a single accepted and stored part from study S9 sets
the batch URL from S9. -/
theorem retrieveUrl_first_accepted_witness :
    ∃ st, StowCallbackRun "u/" "" [⟨"", "S9", "E", "C", "I", true⟩] = some st ∧
      st.retrieveUrl = some "u/studies/S9" := by
  obtain ⟨st, h1, h2⟩ := retrieveUrl_first_accepted "u/" ""
    [⟨"", "S9", "E", "C", "I", true⟩]
    (by intro it hit; simp at hit; simp [hit])
  exact ⟨st, h1, by rw [h2]; rfl⟩

lemma stowAddLoop_filter (cfg : StowConfig) (respond : Nat → Option Json)
    (boundary : String) :
    ∀ (files : List (Option Nat)) (a : Accum) (fl : List Nat),
      stowAddLoop cfg respond boundary files a fl =
        stowAddLoop cfg respond boundary ((files.filterMap id).map some) a fl := by
  intro files
  induction files with
  | nil => intro a fl; rfl
  | cons f rest ih =>
    intro a fl
    cases f with
    | none =>
      have hfm : ((none : Option Nat) :: rest).filterMap id = rest.filterMap id := by
        simp
      rw [hfm]
      exact ih a fl
    | some s =>
      have hfm : (some s :: rest).filterMap id = s :: rest.filterMap id := by
        simp
      rw [hfm]
      simp only [List.map_cons, stowAddLoop]
      cases hs : SendStowChunks cfg respond
          ⟨a.bufferSize + partBytes boundary s, a.countInstances + 1⟩ false with
      | error e => rfl
      | ok p =>
        obtain ⟨a'', flushed?⟩ := p
        exact ih a'' _

/-- C10: the STOW client silently skips every instance whose file cannot be
fetched from the store — the run is identical to the run over only the
fetchable instances — and a request whose instances are all unfetchable
performs no flush at all (for any remote behaviour, even an unusable one)
and still answers the empty JSON object. -/
theorem stowClient_skips_unfetchable (cfg : StowConfig)
    (respond : Nat → Option Json) (boundary : String)
    (files : List (Option Nat)) :
    StowClientRun cfg respond boundary files =
      StowClientRun cfg respond boundary ((files.filterMap id).map some) ∧
    ((∀ f ∈ files, f = none) →
      StowClientRun cfg respond boundary files = .ok ([], "\x7b\x7d\n")) := by
  have hA : StowClientRun cfg respond boundary files =
      StowClientRun cfg respond boundary ((files.filterMap id).map some) := by
    unfold StowClientRun
    rw [stowAddLoop_filter cfg respond boundary files ⟨0, 0⟩ []]
  refine ⟨hA, ?_⟩
  intro h
  have hnil : files.filterMap id = [] := by
    rw [List.filterMap_eq_nil_iff]
    intro a ha
    simp [h a ha]
  rw [hA, hnil]
  have hsf : shouldFlush cfg ⟨0, 0⟩ true = false := by
    obtain ⟨mi, ms⟩ := cfg
    cases mi <;> cases ms <;> simp [shouldFlush]
  simp [StowClientRun, stowAddLoop, sendStowChunks_noflush _ _ _ _ hsf]

/-- C10 witness: two unfetchable instances produce no flush and a success
answer, even against a remote whose responses never parse. -/
theorem stowClient_skips_unfetchable_witness :
    StowClientRun ⟨10, 5⟩ (fun _ => none) "b" [none, none] = .ok ([], "\x7b\x7d\n") :=
  (stowClient_skips_unfetchable ⟨10, 5⟩ (fun _ => none) "b" [none, none]).2 (by simp)

end DicomWeb
